import Mathlib

/-
  Verification development for the terraform-provider-fastly repository.

  The Go sources are shallowly embedded:
  * the vendored go-fastly API client (s3.go, header.go, gzip.go, server.go):
    each exported operation becomes a Lean function taking, besides its input
    struct, the outcome of the single HTTP round trip it would perform
    (`Except GoErr β`: either a transport/HTTP/decode error or the decoded
    body), and returning the Go result together with the list of API calls it
    issued.  Go `panic` is a distinguished outcome constructor.
  * the provider's service-attribute handlers (S3 logging, Datadog logging)
    become pure functions on association lists that model `map[string]any`.
  * Go strings are `String`; Go byte-wise string comparison coincides with
    comparison of the underlying character lists, which is used as the sort
    key so that everything evaluates by `decide`/`rfl`.
  * Go `int` is `Int`; Go `uint`/`uint8` values are `Nat` (conversions from
    `int` wrap modulo 2^64 / 2^8 as in Go).
-/

namespace Fastly

/-! ## Stable sorting (models Go `sort.Stable` with a `Less` comparator).

`sort.Stable` produces the unique stable sort: keys non-decreasing, elements
with equal keys in input order.  Stable insertion sort computes exactly that
permutation and is structurally recursive, so it evaluates in the kernel. -/

def orderedInsertByKey {α β : Type} [LinearOrder β] (key : α → β) (a : α) : List α → List α
  | [] => [a]
  | b :: l => if key a < key b then a :: b :: l else b :: orderedInsertByKey key a l

def stableSortByKey {α β : Type} [LinearOrder β] (key : α → β) : List α → List α
  | [] => []
  | a :: l => orderedInsertByKey key a (stableSortByKey key l)

theorem mem_orderedInsertByKey {α β : Type} [LinearOrder β] (key : α → β) (a x : α)
    (l : List α) : x ∈ orderedInsertByKey key a l ↔ x = a ∨ x ∈ l := by
  induction l with
  | nil => simp [orderedInsertByKey]
  | cons b l ih =>
    by_cases h : key a < key b
    · simp [orderedInsertByKey, h]
    · simp only [orderedInsertByKey, if_neg h, List.mem_cons, ih]
      tauto

theorem pairwise_orderedInsertByKey {α β : Type} [LinearOrder β] (key : α → β) (a : α)
    (l : List α) (h : l.Pairwise fun x y => key x ≤ key y) :
    (orderedInsertByKey key a l).Pairwise fun x y => key x ≤ key y := by
  induction l with
  | nil => simp [orderedInsertByKey]
  | cons b l ih =>
    rw [List.pairwise_cons] at h
    by_cases hab : key a < key b
    · simp only [orderedInsertByKey, if_pos hab]
      rw [List.pairwise_cons]
      refine ⟨?_, List.pairwise_cons.mpr h⟩
      intro x hx
      rcases List.mem_cons.mp hx with rfl | hx
      · exact le_of_lt hab
      · exact le_trans (le_of_lt hab) (h.1 x hx)
    · simp only [orderedInsertByKey, if_neg hab]
      rw [List.pairwise_cons]
      refine ⟨?_, ih h.2⟩
      intro x hx
      rcases (mem_orderedInsertByKey key a x l).mp hx with rfl | hx
      · exact le_of_not_lt hab
      · exact h.1 x hx

theorem perm_orderedInsertByKey {α β : Type} [LinearOrder β] (key : α → β) (a : α)
    (l : List α) : List.Perm (orderedInsertByKey key a l) (a :: l) := by
  induction l with
  | nil => simp [orderedInsertByKey]
  | cons b l ih =>
    by_cases h : key a < key b
    · simp [orderedInsertByKey, h]
    · simp only [orderedInsertByKey, if_neg h]
      exact (ih.cons b).trans (List.Perm.swap a b l)

theorem pairwise_stableSortByKey {α β : Type} [LinearOrder β] (key : α → β) (l : List α) :
    (stableSortByKey key l).Pairwise fun x y => key x ≤ key y := by
  induction l with
  | nil => simp [stableSortByKey]
  | cons a l ih => exact pairwise_orderedInsertByKey key a _ ih

theorem perm_stableSortByKey {α β : Type} [LinearOrder β] (key : α → β) (l : List α) :
    List.Perm (stableSortByKey key l) l := by
  induction l with
  | nil => simp [stableSortByKey]
  | cons a l ih => exact (perm_orderedInsertByKey key a _).trans (ih.cons a)

/-! ## Errors, API calls and outcomes -/

/-- Errors returned by the go-fastly client: the sentinel validation errors
(`ErrMissingServiceID`, ...), `ErrNotOK`, remote `*HTTPError` values carrying
a status code and message, and any other (non-HTTP) error. -/
inductive GoErr where
  | missingServiceID
  | missingServiceVersion
  | missingName
  | missingPoolID
  | missingAddress
  | missingServer
  | missingKMSKeyID
  | notOK
  | http (status : Nat) (msg : String)
  | other (msg : String)
deriving DecidableEq

/-- One HTTP request issued by the client.  The path is the Go
`fmt.Sprintf` result; `url.PathEscape` on interpolated names is elided since
no claim depends on escaping. -/
inductive ApiCall where
  | get (path : String)
  | postForm (path : String)
  | putForm (path : String)
  | del (path : String)
deriving DecidableEq

/-- Result of a Go function: a value, a returned error, or a runtime panic
(e.g. a nil-pointer dereference). -/
inductive GoOutcome (α : Type) where
  | ok (a : α)
  | err (e : GoErr)
  | panicked (msg : String)
deriving DecidableEq

/-- Modelled from the spec: "delete returns a status object with an `ok`
boolean field, non-true treated as failure."  The go-fastly `statusResp`
type and its `Ok()` method live in a client file not present here. -/
structure StatusResp where
  ok : Bool
deriving DecidableEq

/-! ## Records decoded from the remote API (go-fastly structs).
Field defaults are the Go zero values.  `*time.Time` timestamps are
`Option Int` (server-assigned). -/

/-- go-fastly `S3` (s3.go).  `redundancy`, `serverSideEncryption` and `acl`
are the string-typed `S3Redundancy` / `S3ServerSideEncryption` /
`S3AccessControlList` values. -/
structure S3 where
  serviceID : String := ""
  serviceVersion : Int := 0
  name : String := ""
  bucketName : String := ""
  domain : String := ""
  accessKey : String := ""
  secretKey : String := ""
  iamRole : String := ""
  path : String := ""
  period : Nat := 0
  compressionCodec : String := ""
  gzipLevel : Nat := 0
  format : String := ""
  formatVersion : Nat := 0
  responseCondition : String := ""
  messageType : String := ""
  timestampFormat : String := ""
  placement : String := ""
  publicKey : String := ""
  redundancy : String := ""
  serverSideEncryptionKMSKeyID : String := ""
  serverSideEncryption : String := ""
  createdAt : Option Int := none
  updatedAt : Option Int := none
  deletedAt : Option Int := none
  acl : String := ""
deriving DecidableEq

/-- go-fastly `Header` (header.go).  `action` and `headerType` are the
string-typed `HeaderAction` / `HeaderType` values. -/
structure Header where
  serviceID : String := ""
  serviceVersion : Int := 0
  name : String := ""
  action : String := ""
  ignoreIfSet : Bool := false
  headerType : String := ""
  destination : String := ""
  source : String := ""
  regex : String := ""
  substitution : String := ""
  priority : Nat := 0
  requestCondition : String := ""
  cacheCondition : String := ""
  responseCondition : String := ""
  createdAt : Option Int := none
  updatedAt : Option Int := none
  deletedAt : Option Int := none
deriving DecidableEq

/-- go-fastly `Gzip` (gzip.go). -/
structure Gzip where
  serviceID : String := ""
  serviceVersion : Int := 0
  name : String := ""
  contentTypes : String := ""
  extensions : String := ""
  cacheCondition : String := ""
  createdAt : Option Int := none
  updatedAt : Option Int := none
  deletedAt : Option Int := none
deriving DecidableEq

/-- go-fastly `Server` (server.go).  Servers are keyed by pool, carry an
opaque `id` and an `address`, and have no name field. -/
structure Server where
  serviceID : String := ""
  poolID : String := ""
  id : String := ""
  address : String := ""
  comment : String := ""
  weight : Nat := 0
  maxConn : Nat := 0
  port : Nat := 0
  disabled : Bool := false
  overrideHost : String := ""
  createdAt : Option Int := none
  updatedAt : Option Int := none
  deletedAt : Option Int := none
deriving DecidableEq

/-- go-fastly `Datadog` record, as consumed by the provider's
`flattenDatadog`.  The struct itself is in a client file not present here;
the fields are the ones the provider reads. -/
structure Datadog where
  serviceID : String := ""
  serviceVersion : Int := 0
  name : String := ""
  token : String := ""
  region : String := ""
  format : String := ""
  formatVersion : Nat := 0
  placement : String := ""
  responseCondition : String := ""
  createdAt : Option Int := none
  updatedAt : Option Int := none
  deletedAt : Option Int := none
deriving DecidableEq

/-! ## go-fastly client operations: S3 (s3.go) -/

/-- `s3sByName.Less` compares names with Go `<` (byte-wise lexicographic),
which coincides with comparison of the character lists. -/
def s3SortKey (s : S3) : List Char := s.name.data

structure ListS3sInput where
  serviceID : String
  serviceVersion : Int

/-- `ListS3s`: validates the input, issues one GET, and returns the decoded
list run through `sort.Stable(s3sByName(...))`. -/
def ListS3s (i : ListS3sInput) (remote : Except GoErr (List S3)) :
    GoOutcome (List S3) × List ApiCall :=
  if i.serviceID = "" then (.err .missingServiceID, [])
  else if i.serviceVersion = 0 then (.err .missingServiceVersion, [])
  else
    let call := ApiCall.get ("/service/" ++ i.serviceID ++ "/version/" ++
      toString i.serviceVersion ++ "/logging/s3")
    match remote with
    | .error e => (.err e, [call])
    | .ok s3s => (.ok (stableSortByKey s3SortKey s3s), [call])

structure CreateS3Input where
  serviceID : String
  serviceVersion : Int
  name : String := ""
  bucketName : String := ""
  domain : String := ""
  accessKey : String := ""
  secretKey : String := ""
  iamRole : String := ""
  path : String := ""
  period : Nat := 0
  compressionCodec : String := ""
  gzipLevel : Nat := 0
  format : String := ""
  messageType : String := ""
  formatVersion : Nat := 0
  responseCondition : String := ""
  timestampFormat : String := ""
  redundancy : String := ""
  placement : String := ""
  publicKey : String := ""
  serverSideEncryptionKMSKeyID : String := ""
  serverSideEncryption : String := ""
  acl : String := ""

/-- `CreateS3`: validation (including the guarded aws:kms check), one POST. -/
def CreateS3 (i : CreateS3Input) (remote : Except GoErr S3) :
    GoOutcome S3 × List ApiCall :=
  if i.serviceID = "" then (.err .missingServiceID, [])
  else if i.serviceVersion = 0 then (.err .missingServiceVersion, [])
  else if i.serverSideEncryption = "aws:kms" ∧ i.serverSideEncryptionKMSKeyID = "" then
    (.err .missingKMSKeyID, [])
  else
    let call := ApiCall.postForm ("/service/" ++ i.serviceID ++ "/version/" ++
      toString i.serviceVersion ++ "/logging/s3")
    match remote with
    | .error e => (.err e, [call])
    | .ok s3 => (.ok s3, [call])

structure GetS3Input where
  serviceID : String
  serviceVersion : Int
  name : String

/-- `GetS3`. -/
def GetS3 (i : GetS3Input) (remote : Except GoErr S3) :
    GoOutcome S3 × List ApiCall :=
  if i.serviceID = "" then (.err .missingServiceID, [])
  else if i.serviceVersion = 0 then (.err .missingServiceVersion, [])
  else if i.name = "" then (.err .missingName, [])
  else
    let call := ApiCall.get ("/service/" ++ i.serviceID ++ "/version/" ++
      toString i.serviceVersion ++ "/logging/s3/" ++ i.name)
    match remote with
    | .error e => (.err e, [call])
    | .ok s3 => (.ok s3, [call])

structure UpdateS3Input where
  serviceID : String
  serviceVersion : Int
  name : String
  newName : Option String := none
  bucketName : Option String := none
  domain : Option String := none
  accessKey : Option String := none
  secretKey : Option String := none
  iamRole : Option String := none
  path : Option String := none
  period : Option Nat := none
  compressionCodec : Option String := none
  gzipLevel : Option Nat := none
  format : Option String := none
  formatVersion : Option Nat := none
  responseCondition : Option String := none
  messageType : Option String := none
  timestampFormat : Option String := none
  redundancy : Option String := none
  placement : Option String := none
  publicKey : Option String := none
  serverSideEncryptionKMSKeyID : Option String := none
  serverSideEncryption : Option String := none
  acl : Option String := none

/-- `UpdateS3`: its aws:kms validation dereferences
`i.ServerSideEncryptionKMSKeyID` without a nil check, so when
`ServerSideEncryption` is set to aws:kms and the key id pointer is nil the
function panics instead of returning the sentinel error. -/
def UpdateS3 (i : UpdateS3Input) (remote : Except GoErr S3) :
    GoOutcome S3 × List ApiCall :=
  if i.serviceID = "" then (.err .missingServiceID, [])
  else if i.serviceVersion = 0 then (.err .missingServiceVersion, [])
  else if i.name = "" then (.err .missingName, [])
  else
    let proceed : GoOutcome S3 × List ApiCall :=
      let call := ApiCall.putForm ("/service/" ++ i.serviceID ++ "/version/" ++
        toString i.serviceVersion ++ "/logging/s3/" ++ i.name)
      match remote with
      | .error e => (.err e, [call])
      | .ok s3 => (.ok s3, [call])
    match i.serverSideEncryption with
    | none => proceed
    | some sse =>
      if sse = "aws:kms" then
        match i.serverSideEncryptionKMSKeyID with
        | none => (.panicked "runtime error: invalid memory address or nil pointer dereference", [])
        | some kid => if kid = "" then (.err .missingKMSKeyID, []) else proceed
      else proceed

structure DeleteS3Input where
  serviceID : String
  serviceVersion : Int
  name : String

/-- `DeleteS3`: one DELETE; decodes a `statusResp`, returning `ErrNotOK`
unless its ok field is true. -/
def DeleteS3 (i : DeleteS3Input) (remote : Except GoErr StatusResp) :
    GoOutcome Unit × List ApiCall :=
  if i.serviceID = "" then (.err .missingServiceID, [])
  else if i.serviceVersion = 0 then (.err .missingServiceVersion, [])
  else if i.name = "" then (.err .missingName, [])
  else
    let call := ApiCall.del ("/service/" ++ i.serviceID ++ "/version/" ++
      toString i.serviceVersion ++ "/logging/s3/" ++ i.name)
    match remote with
    | .error e => (.err e, [call])
    | .ok r => if r.ok then (.ok (), [call]) else (.err .notOK, [call])

/-! ## go-fastly client operations: Header (header.go) -/

/-- `headersByName.Less` compares names with Go `<`. -/
def headerSortKey (h : Header) : List Char := h.name.data

structure ListHeadersInput where
  serviceID : String
  serviceVersion : Int

/-- `ListHeaders`: validates, one GET, result run through
`sort.Stable(headersByName(...))`. -/
def ListHeaders (i : ListHeadersInput) (remote : Except GoErr (List Header)) :
    GoOutcome (List Header) × List ApiCall :=
  if i.serviceID = "" then (.err .missingServiceID, [])
  else if i.serviceVersion = 0 then (.err .missingServiceVersion, [])
  else
    let call := ApiCall.get ("/service/" ++ i.serviceID ++ "/version/" ++
      toString i.serviceVersion ++ "/header")
    match remote with
    | .error e => (.err e, [call])
    | .ok bs => (.ok (stableSortByKey headerSortKey bs), [call])

structure CreateHeaderInput where
  serviceID : String
  serviceVersion : Int
  name : String := ""
  action : String := ""
  ignoreIfSet : Bool := false
  headerType : String := ""
  destination : String := ""
  source : String := ""
  regex : String := ""
  substitution : String := ""
  priority : Option Nat := none
  requestCondition : String := ""
  cacheCondition : String := ""
  responseCondition : String := ""

/-- `CreateHeader`. -/
def CreateHeader (i : CreateHeaderInput) (remote : Except GoErr Header) :
    GoOutcome Header × List ApiCall :=
  if i.serviceID = "" then (.err .missingServiceID, [])
  else if i.serviceVersion = 0 then (.err .missingServiceVersion, [])
  else
    let call := ApiCall.postForm ("/service/" ++ i.serviceID ++ "/version/" ++
      toString i.serviceVersion ++ "/header")
    match remote with
    | .error e => (.err e, [call])
    | .ok b => (.ok b, [call])

structure GetHeaderInput where
  serviceID : String
  serviceVersion : Int
  name : String

/-- `GetHeader`. -/
def GetHeader (i : GetHeaderInput) (remote : Except GoErr Header) :
    GoOutcome Header × List ApiCall :=
  if i.serviceID = "" then (.err .missingServiceID, [])
  else if i.serviceVersion = 0 then (.err .missingServiceVersion, [])
  else if i.name = "" then (.err .missingName, [])
  else
    let call := ApiCall.get ("/service/" ++ i.serviceID ++ "/version/" ++
      toString i.serviceVersion ++ "/header/" ++ i.name)
    match remote with
    | .error e => (.err e, [call])
    | .ok b => (.ok b, [call])

structure UpdateHeaderInput where
  serviceID : String
  serviceVersion : Int
  name : String
  newName : Option String := none
  action : Option String := none
  ignoreIfSet : Option Bool := none
  headerType : Option String := none
  destination : Option String := none
  source : Option String := none
  regex : Option String := none
  substitution : Option String := none
  priority : Option Nat := none
  requestCondition : Option String := none
  cacheCondition : Option String := none
  responseCondition : Option String := none

/-- `UpdateHeader`. -/
def UpdateHeader (i : UpdateHeaderInput) (remote : Except GoErr Header) :
    GoOutcome Header × List ApiCall :=
  if i.serviceID = "" then (.err .missingServiceID, [])
  else if i.serviceVersion = 0 then (.err .missingServiceVersion, [])
  else if i.name = "" then (.err .missingName, [])
  else
    let call := ApiCall.putForm ("/service/" ++ i.serviceID ++ "/version/" ++
      toString i.serviceVersion ++ "/header/" ++ i.name)
    match remote with
    | .error e => (.err e, [call])
    | .ok b => (.ok b, [call])

structure DeleteHeaderInput where
  serviceID : String
  serviceVersion : Int
  name : String

/-- `DeleteHeader`: one DELETE; `ErrNotOK` unless the decoded status is ok. -/
def DeleteHeader (i : DeleteHeaderInput) (remote : Except GoErr StatusResp) :
    GoOutcome Unit × List ApiCall :=
  if i.serviceID = "" then (.err .missingServiceID, [])
  else if i.serviceVersion = 0 then (.err .missingServiceVersion, [])
  else if i.name = "" then (.err .missingName, [])
  else
    let call := ApiCall.del ("/service/" ++ i.serviceID ++ "/version/" ++
      toString i.serviceVersion ++ "/header/" ++ i.name)
    match remote with
    | .error e => (.err e, [call])
    | .ok r => if r.ok then (.ok (), [call]) else (.err .notOK, [call])

/-! ## go-fastly client operations: Gzip (gzip.go) -/

/-- `gzipsByName.Less` compares names with Go `<`. -/
def gzipSortKey (g : Gzip) : List Char := g.name.data

structure ListGzipsInput where
  serviceID : String
  serviceVersion : Int

/-- `ListGzips`: validates, one GET, result run through
`sort.Stable(gzipsByName(...))`. -/
def ListGzips (i : ListGzipsInput) (remote : Except GoErr (List Gzip)) :
    GoOutcome (List Gzip) × List ApiCall :=
  if i.serviceID = "" then (.err .missingServiceID, [])
  else if i.serviceVersion = 0 then (.err .missingServiceVersion, [])
  else
    let call := ApiCall.get ("/service/" ++ i.serviceID ++ "/version/" ++
      toString i.serviceVersion ++ "/gzip")
    match remote with
    | .error e => (.err e, [call])
    | .ok gzips => (.ok (stableSortByKey gzipSortKey gzips), [call])

structure CreateGzipInput where
  serviceID : String
  serviceVersion : Int
  name : String := ""
  contentTypes : String := ""
  extensions : String := ""
  cacheCondition : String := ""

/-- `CreateGzip`. -/
def CreateGzip (i : CreateGzipInput) (remote : Except GoErr Gzip) :
    GoOutcome Gzip × List ApiCall :=
  if i.serviceID = "" then (.err .missingServiceID, [])
  else if i.serviceVersion = 0 then (.err .missingServiceVersion, [])
  else
    let call := ApiCall.postForm ("/service/" ++ i.serviceID ++ "/version/" ++
      toString i.serviceVersion ++ "/gzip")
    match remote with
    | .error e => (.err e, [call])
    | .ok g => (.ok g, [call])

structure GetGzipInput where
  serviceID : String
  serviceVersion : Int
  name : String

/-- `GetGzip`. -/
def GetGzip (i : GetGzipInput) (remote : Except GoErr Gzip) :
    GoOutcome Gzip × List ApiCall :=
  if i.serviceID = "" then (.err .missingServiceID, [])
  else if i.serviceVersion = 0 then (.err .missingServiceVersion, [])
  else if i.name = "" then (.err .missingName, [])
  else
    let call := ApiCall.get ("/service/" ++ i.serviceID ++ "/version/" ++
      toString i.serviceVersion ++ "/gzip/" ++ i.name)
    match remote with
    | .error e => (.err e, [call])
    | .ok g => (.ok g, [call])

structure UpdateGzipInput where
  serviceID : String
  serviceVersion : Int
  name : String
  newName : Option String := none
  contentTypes : Option String := none
  extensions : Option String := none
  cacheCondition : Option String := none

/-- `UpdateGzip`. -/
def UpdateGzip (i : UpdateGzipInput) (remote : Except GoErr Gzip) :
    GoOutcome Gzip × List ApiCall :=
  if i.serviceID = "" then (.err .missingServiceID, [])
  else if i.serviceVersion = 0 then (.err .missingServiceVersion, [])
  else if i.name = "" then (.err .missingName, [])
  else
    let call := ApiCall.putForm ("/service/" ++ i.serviceID ++ "/version/" ++
      toString i.serviceVersion ++ "/gzip/" ++ i.name)
    match remote with
    | .error e => (.err e, [call])
    | .ok g => (.ok g, [call])

structure DeleteGzipInput where
  serviceID : String
  serviceVersion : Int
  name : String

/-- `DeleteGzip`: one DELETE; `ErrNotOK` unless the decoded status is ok. -/
def DeleteGzip (i : DeleteGzipInput) (remote : Except GoErr StatusResp) :
    GoOutcome Unit × List ApiCall :=
  if i.serviceID = "" then (.err .missingServiceID, [])
  else if i.serviceVersion = 0 then (.err .missingServiceVersion, [])
  else if i.name = "" then (.err .missingName, [])
  else
    let call := ApiCall.del ("/service/" ++ i.serviceID ++ "/version/" ++
      toString i.serviceVersion ++ "/gzip/" ++ i.name)
    match remote with
    | .error e => (.err e, [call])
    | .ok r => if r.ok then (.ok (), [call]) else (.err .notOK, [call])

/-! ## go-fastly client operations: Server (pool servers, versionless) -/

/-- `serversByAddress.Less` compares addresses with Go `<`. -/
def serverSortKey (s : Server) : List Char := s.address.data

structure ListServersInput where
  serviceID : String
  poolID : String

/-- `ListServers`: validates service and pool ids, one GET, result run
through `sort.Stable(serversByAddress(...))`. -/
def ListServers (i : ListServersInput) (remote : Except GoErr (List Server)) :
    GoOutcome (List Server) × List ApiCall :=
  if i.serviceID = "" then (.err .missingServiceID, [])
  else if i.poolID = "" then (.err .missingPoolID, [])
  else
    let call := ApiCall.get ("/service/" ++ i.serviceID ++ "/pool/" ++ i.poolID ++ "/servers")
    match remote with
    | .error e => (.err e, [call])
    | .ok ss => (.ok (stableSortByKey serverSortKey ss), [call])

structure CreateServerInput where
  serviceID : String
  poolID : String
  address : String := ""
  comment : String := ""
  weight : Nat := 0
  maxConn : Nat := 0
  port : Nat := 0
  disabled : Bool := false
  overrideHost : String := ""

/-- `CreateServer`: requires service id, pool id and address. -/
def CreateServer (i : CreateServerInput) (remote : Except GoErr Server) :
    GoOutcome Server × List ApiCall :=
  if i.serviceID = "" then (.err .missingServiceID, [])
  else if i.poolID = "" then (.err .missingPoolID, [])
  else if i.address = "" then (.err .missingAddress, [])
  else
    let call := ApiCall.postForm ("/service/" ++ i.serviceID ++ "/pool/" ++ i.poolID ++ "/server")
    match remote with
    | .error e => (.err e, [call])
    | .ok s => (.ok s, [call])

structure GetServerInput where
  serviceID : String
  poolID : String
  server : String

/-- `GetServer`. -/
def GetServer (i : GetServerInput) (remote : Except GoErr Server) :
    GoOutcome Server × List ApiCall :=
  if i.serviceID = "" then (.err .missingServiceID, [])
  else if i.poolID = "" then (.err .missingPoolID, [])
  else if i.server = "" then (.err .missingServer, [])
  else
    let call := ApiCall.get ("/service/" ++ i.serviceID ++ "/pool/" ++ i.poolID ++
      "/server/" ++ i.server)
    match remote with
    | .error e => (.err e, [call])
    | .ok s => (.ok s, [call])

structure UpdateServerInput where
  serviceID : String
  poolID : String
  server : String
  address : Option String := none
  comment : Option String := none
  weight : Option Nat := none
  maxConn : Option Nat := none
  port : Option Nat := none
  disabled : Option Bool := none
  overrideHost : Option String := none

/-- `UpdateServer`. -/
def UpdateServer (i : UpdateServerInput) (remote : Except GoErr Server) :
    GoOutcome Server × List ApiCall :=
  if i.serviceID = "" then (.err .missingServiceID, [])
  else if i.poolID = "" then (.err .missingPoolID, [])
  else if i.server = "" then (.err .missingServer, [])
  else
    let call := ApiCall.putForm ("/service/" ++ i.serviceID ++ "/pool/" ++ i.poolID ++
      "/server/" ++ i.server)
    match remote with
    | .error e => (.err e, [call])
    | .ok s => (.ok s, [call])

structure DeleteServerInput where
  serviceID : String
  poolID : String
  server : String

/-- `DeleteServer`: one DELETE; `ErrNotOK` unless the decoded status is ok. -/
def DeleteServer (i : DeleteServerInput) (remote : Except GoErr StatusResp) :
    GoOutcome Unit × List ApiCall :=
  if i.serviceID = "" then (.err .missingServiceID, [])
  else if i.poolID = "" then (.err .missingPoolID, [])
  else if i.server = "" then (.err .missingServer, [])
  else
    let call := ApiCall.del ("/service/" ++ i.serviceID ++ "/pool/" ++ i.poolID ++
      "/server/" ++ i.server)
    match remote with
    | .error e => (.err e, [call])
    | .ok r => if r.ok then (.ok (), [call]) else (.err .notOK, [call])

/-! ## Provider layer: dynamic values and `map[string]any`

Terraform hands the handlers `map[string]any` blocks.  These are modelled as
association lists with distinct keys; the Go map literals below are written
in source order (Go map iteration order is unspecified, but every operation
performed on them — lookup and delete-by-value-predicate — is order
independent). -/

/-- A dynamically typed Go value (`any`).  `uintV` covers the unsigned Go
types (`uint`, `uint8`); in Go they are distinct dynamic types, but no
claim distinguishes them and none compares equal to a string. -/
inductive GoVal where
  | str (s : String)
  | intV (n : Int)
  | uintV (n : Nat)
  | boolV (b : Bool)
deriving DecidableEq

/-- A `map[string]any` snapshot as an association list. -/
abbrev AList : Type := List (String × GoVal)

def alistLookup (m : AList) (k : String) : Option GoVal :=
  (List.find? (fun p => p.1 == k) m).map Prod.snd

def alistKeys (m : AList) : List String := List.map Prod.fst m

/-- Go type assertion `v.(string)` restricted to well-typed values (the
source panics on other dynamic types; no claim exercises that). -/
def GoVal.asStr : GoVal → Option String
  | .str s => some s
  | _ => none

/-- Go type assertion `v.(int)` restricted to well-typed values. -/
def GoVal.asInt : GoVal → Option Int
  | .intV n => some n
  | _ => none

/-- Go conversion `uint(n)` from `int` (64-bit, two's complement wrap). -/
def goUint (n : Int) : Nat := (n % (2 ^ 64)).toNat

/-- Go conversion `uint8(n)` from `int`. -/
def goUint8 (n : Int) : Nat := (n % (2 ^ 8)).toNat

/-- Go equality `v == ""` on an `any` value: true only for a string-typed
empty string. -/
def GoVal.isEmptyStr : GoVal → Bool
  | .str s => s == ""
  | _ => false

/-! ## Provider layer: delete helpers (`deleteS3`, `deleteDatadog`)

Both helpers wrap the client delete call: a nil error or a 404 `*HTTPError`
yields success, every other error is returned unchanged.
`HTTPError.IsNotFound` is not among the files here; modelled from the spec:
"Remote 404 on delete is swallowed (treated as already-deleted)". -/

/-- Modelled from the spec: `(*HTTPError).IsNotFound()` holds exactly for
HTTP status 404. -/
def isNotFound : GoErr → Bool
  | .http status _ => status == 404
  | _ => false

/-- Provider `deleteS3` (lowercase helper in the S3 logging handler): the
`err.(*gofastly.HTTPError)` type assertion, then the 404 swallow. -/
def deleteS3 (err : Option GoErr) : Option GoErr :=
  match err with
  | none => none
  | some e =>
    match e with
    | .http status msg => if status == 404 then none else some (.http status msg)
    | e' => some e'

/-- Provider `deleteDatadog` (identical shape to `deleteS3`). -/
def deleteDatadog (err : Option GoErr) : Option GoErr :=
  match err with
  | none => none
  | some e =>
    match e with
    | .http status msg => if status == 404 then none else some (.http status msg)
    | e' => some e'

/-! ## Provider layer: flatten functions -/

/-- One iteration of `flattenS3s`: build the state map for a single record,
then prune every key whose value is the empty string. -/
def flattenS3One (s : S3) : AList :=
  let ns : AList := [
    ("name", .str s.name),
    ("bucket_name", .str s.bucketName),
    ("s3_access_key", .str s.accessKey),
    ("s3_secret_key", .str s.secretKey),
    ("s3_iam_role", .str s.iamRole),
    ("path", .str s.path),
    ("period", .uintV s.period),
    ("domain", .str s.domain),
    ("gzip_level", .uintV s.gzipLevel),
    ("format", .str s.format),
    ("format_version", .uintV s.formatVersion),
    ("timestamp_format", .str s.timestampFormat),
    ("redundancy", .str s.redundancy),
    ("response_condition", .str s.responseCondition),
    ("message_type", .str s.messageType),
    ("public_key", .str s.publicKey),
    ("placement", .str s.placement),
    ("server_side_encryption", .str s.serverSideEncryption),
    ("server_side_encryption_kms_key_id", .str s.serverSideEncryptionKMSKeyID),
    ("compression_codec", .str s.compressionCodec),
    ("acl", .str s.acl)]
  List.filter (fun p => !(GoVal.isEmptyStr p.2)) ns

/-- Provider `flattenS3s`. -/
def flattenS3s (l : List S3) : List AList := l.map flattenS3One

/-- One iteration of `flattenDatadog`: build the state map, prune empty
strings. -/
def flattenDatadogOne (d : Datadog) : AList :=
  let ndl : AList := [
    ("name", .str d.name),
    ("token", .str d.token),
    ("region", .str d.region),
    ("format", .str d.format),
    ("format_version", .uintV d.formatVersion),
    ("placement", .str d.placement),
    ("response_condition", .str d.responseCondition)]
  List.filter (fun p => !(GoVal.isEmptyStr p.2)) ndl

/-- Provider `flattenDatadog`. -/
def flattenDatadog (l : List Datadog) : List AList := l.map flattenDatadogOne

/-! ## Provider layer: schemas (`GetSchema`) -/

/-- The provider's service type: request/response-oriented VCL services vs
compute (wasm) services. -/
inductive ServiceType where
  | vcl
  | compute
deriving DecidableEq

/-- The four block attributes added only for `ServiceTypeVCL`. -/
def vclOnlyFields : List String :=
  ["format", "format_version", "response_condition", "placement"]

/-- Keys of the block schema built by
`DatadogServiceAttributeHandler.GetSchema`: the unconditional attributes,
plus the VCL-only ones when the handler's metadata has the VCL type. -/
def DatadogGetSchemaKeys (st : ServiceType) : List String :=
  ["name", "region", "token"] ++ (if st = .vcl then vclOnlyFields else [])

/-- Keys of the block schema built by
`S3LoggingServiceAttributeHandler.GetSchema`. -/
def S3LoggingGetSchemaKeys (st : ServiceType) : List String :=
  ["acl", "bucket_name", "compression_codec", "domain", "gzip_level",
   "message_type", "name", "path", "period", "public_key", "redundancy",
   "s3_access_key", "s3_iam_role", "s3_secret_key", "server_side_encryption",
   "server_side_encryption_kms_key_id", "timestamp_format"] ++
  (if st = .vcl then vclOnlyFields else [])

/-! ## Provider layer: S3 logging Update (building `UpdateS3Input`) -/

/-- Field extraction `if v, ok := modified[k]; ok { ... String(v.(string)) }`. -/
def modStr (modified : AList) (k : String) : Option String :=
  (alistLookup modified k).bind GoVal.asStr

/-- Field extraction `... Uint(uint(v.(int)))`. -/
def modUint (modified : AList) (k : String) : Option Nat :=
  ((alistLookup modified k).bind GoVal.asInt).map goUint

/-- Field extraction `... Uint8(uint8(v.(int)))`. -/
def modUint8 (modified : AList) (k : String) : Option Nat :=
  ((alistLookup modified k).bind GoVal.asInt).map goUint8

/-- `S3LoggingServiceAttributeHandler.Update`, the options-building part:
start from the identifying fields only and set exactly the pointers whose
schema key occurs in the `modified` map. -/
def S3LoggingUpdateOpts (serviceID : String) (serviceVersion : Int)
    (resourceName : String) (modified : AList) : UpdateS3Input :=
  { serviceID := serviceID
    serviceVersion := serviceVersion
    name := resourceName
    bucketName := modStr modified "bucket_name"
    domain := modStr modified "domain"
    accessKey := modStr modified "s3_access_key"
    secretKey := modStr modified "s3_secret_key"
    iamRole := modStr modified "s3_iam_role"
    path := modStr modified "path"
    period := modUint modified "period"
    compressionCodec := modStr modified "compression_codec"
    gzipLevel := modUint8 modified "gzip_level"
    format := modStr modified "format"
    formatVersion := modUint modified "format_version"
    responseCondition := modStr modified "response_condition"
    messageType := modStr modified "message_type"
    timestampFormat := modStr modified "timestamp_format"
    redundancy := modStr modified "redundancy"
    placement := modStr modified "placement"
    publicKey := modStr modified "public_key"
    serverSideEncryptionKMSKeyID := modStr modified "server_side_encryption_kms_key_id"
    serverSideEncryption := modStr modified "server_side_encryption"
    acl := modStr modified "acl" }

/-- Form encoding of a struct with `url:"...,omitempty"` pointer fields: a
nil pointer contributes nothing, a set pointer contributes its key/value. -/
def encodeForm (pairs : List (String × Option String)) : List (String × String) :=
  pairs.filterMap (fun p => p.2.map (fun v => (p.1, v)))

/-- The `url`-tagged optional fields of `UpdateS3Input`, in declaration
order, with numeric pointers rendered in decimal. -/
def updateS3FormPairs (i : UpdateS3Input) : List (String × Option String) :=
  [("name", i.newName),
   ("bucket_name", i.bucketName),
   ("domain", i.domain),
   ("access_key", i.accessKey),
   ("secret_key", i.secretKey),
   ("iam_role", i.iamRole),
   ("path", i.path),
   ("period", i.period.map toString),
   ("compression_codec", i.compressionCodec),
   ("gzip_level", i.gzipLevel.map toString),
   ("format", i.format),
   ("format_version", i.formatVersion.map toString),
   ("response_condition", i.responseCondition),
   ("message_type", i.messageType),
   ("timestamp_format", i.timestampFormat),
   ("redundancy", i.redundancy),
   ("placement", i.placement),
   ("public_key", i.publicKey),
   ("server_side_encryption_kms_key_id", i.serverSideEncryptionKMSKeyID),
   ("server_side_encryption", i.serverSideEncryption),
   ("acl", i.acl)]

/-- The form-encoded body `PutForm` would send for an `UpdateS3Input`. -/
def encodeUpdateS3Form (i : UpdateS3Input) : List (String × String) :=
  encodeForm (updateS3FormPairs i)

/-- Correspondence between block schema keys (as they appear in the
`modified` map) and the form keys of `UpdateS3Input`, as wired up by
`S3LoggingServiceAttributeHandler.Update`. -/
def s3UpdateFieldPairs : List (String × String) :=
  [("bucket_name", "bucket_name"),
   ("domain", "domain"),
   ("s3_access_key", "access_key"),
   ("s3_secret_key", "secret_key"),
   ("s3_iam_role", "iam_role"),
   ("path", "path"),
   ("period", "period"),
   ("compression_codec", "compression_codec"),
   ("gzip_level", "gzip_level"),
   ("format", "format"),
   ("format_version", "format_version"),
   ("response_condition", "response_condition"),
   ("message_type", "message_type"),
   ("timestamp_format", "timestamp_format"),
   ("redundancy", "redundancy"),
   ("placement", "placement"),
   ("public_key", "public_key"),
   ("server_side_encryption_kms_key_id", "server_side_encryption_kms_key_id"),
   ("server_side_encryption", "server_side_encryption"),
   ("acl", "acl")]

/-! ## Provider layer: S3 logging Create and the create/read round trip -/

/-- The VCL logging attribute bundle threaded through the logging handlers
(`format`, `format_version`, `placement`, `response_condition`). -/
structure VCLLoggingAttributes where
  format : String
  formatVersion : Option Nat
  placement : String
  responseCondition : String

/-- Modelled from the spec: `getVCLLoggingAttributes` (defined on the shared
base handler, not among the files here) reads the four VCL-only block
attributes from the block for a VCL service — they "apply only to the
request/response-oriented variant, not the compute variant" — and yields
the zero values for a compute service. -/
def getVCLLoggingAttributes (st : ServiceType) (df : AList) : VCLLoggingAttributes :=
  match st with
  | .vcl =>
    { format := (modStr df "format").getD ""
      formatVersion := modUint df "format_version"
      placement := (modStr df "placement").getD ""
      responseCondition := (modStr df "response_condition").getD "" }
  | .compute =>
    { format := "", formatVersion := none, placement := "", responseCondition := "" }

/-- Modelled from the spec: `uintOrDefault` (shared helper, not among the
files here) dereferences an optional unsigned value, defaulting to 0. -/
def uintOrDefault (v : Option Nat) : Nat := v.getD 0

/-- Required lookup `df[k].(string)`: the source type-asserts, panicking on
a missing or ill-typed entry; the schema guarantees presence, and every
theorem below pins these entries explicitly. -/
def dfStr (df : AList) (k : String) : String := ((alistLookup df k).bind GoVal.asStr).getD ""

/-- Required lookup `uint(df[k].(int))`. -/
def dfUint (df : AList) (k : String) : Nat :=
  goUint (((alistLookup df k).bind GoVal.asInt).getD 0)

/-- Required lookup `uint8(df[k].(int))`. -/
def dfUint8 (df : AList) (k : String) : Nat :=
  goUint8 (((alistLookup df k).bind GoVal.asInt).getD 0)

/-- `S3LoggingServiceAttributeHandler.buildCreate`: translate a block map
into a `CreateS3Input`.  The `server_side_encryption` switch only passes
through the two recognised values. -/
def S3LoggingBuildCreate (st : ServiceType) (df : AList) (serviceID : String)
    (serviceVersion : Int) : CreateS3Input :=
  let vla := getVCLLoggingAttributes st df
  let encryption := dfStr df "server_side_encryption"
  { serviceID := serviceID
    serviceVersion := serviceVersion
    name := dfStr df "name"
    bucketName := dfStr df "bucket_name"
    accessKey := dfStr df "s3_access_key"
    secretKey := dfStr df "s3_secret_key"
    iamRole := dfStr df "s3_iam_role"
    period := dfUint df "period"
    gzipLevel := dfUint8 df "gzip_level"
    domain := dfStr df "domain"
    path := dfStr df "path"
    timestampFormat := dfStr df "timestamp_format"
    messageType := dfStr df "message_type"
    publicKey := dfStr df "public_key"
    serverSideEncryptionKMSKeyID := dfStr df "server_side_encryption_kms_key_id"
    compressionCodec := dfStr df "compression_codec"
    format := vla.format
    formatVersion := uintOrDefault vla.formatVersion
    responseCondition := vla.responseCondition
    placement := vla.placement
    redundancy := dfStr df "redundancy"
    acl := dfStr df "acl"
    serverSideEncryption :=
      if encryption = "AES256" then "AES256"
      else if encryption = "aws:kms" then "aws:kms"
      else "" }

/-- Modelled from the spec: "For all nested-resource kinds, Create→Read
round-trips" — the remote stores exactly the fields submitted on create and
serves them back on read, with the server-assigned timestamps
(`created_at`, `updated_at`, `deleted_at`) populated by the server. -/
def s3FromCreate (i : CreateS3Input) (createdAt updatedAt deletedAt : Option Int) : S3 :=
  { serviceID := i.serviceID
    serviceVersion := i.serviceVersion
    name := i.name
    bucketName := i.bucketName
    domain := i.domain
    accessKey := i.accessKey
    secretKey := i.secretKey
    iamRole := i.iamRole
    path := i.path
    period := i.period
    compressionCodec := i.compressionCodec
    gzipLevel := i.gzipLevel
    format := i.format
    formatVersion := i.formatVersion
    responseCondition := i.responseCondition
    messageType := i.messageType
    timestampFormat := i.timestampFormat
    placement := i.placement
    publicKey := i.publicKey
    redundancy := i.redundancy
    serverSideEncryptionKMSKeyID := i.serverSideEncryptionKMSKeyID
    serverSideEncryption := i.serverSideEncryption
    createdAt := createdAt
    updatedAt := updatedAt
    deletedAt := deletedAt
    acl := i.acl }

/-! ## WAF deployment status poller

`waitForDeployment` delegates to the terraform-plugin-sdk
`resource.StateChangeConf` wait loop (Pending = pending/in progress,
Target = completed, ContinuousTargetOccurence = 5), which is not among the
files here.  Modelled from the spec: "repeatedly fetches status until it
reaches a terminal state (`completed`) or fails (`failed`, surfacing the
remote error message) or times out ... requires several consecutive stable
observations of the target state before declaring success."  Time is
abstracted into the finite list of poll observations available before the
configured timeout expires; exhausting it is the timeout. -/

inductive WAFDeploymentStatus where
  | pending
  | inProgress
  | completed
  | failed
deriving DecidableEq

/-- go-fastly `WAFVersion`, restricted to the fields the checker reads. -/
structure WAFVersion where
  number : Int := 1
  lastDeploymentStatus : WAFDeploymentStatus
  error : String := ""
deriving DecidableEq

/-- The `Refresh` closure from `WAFDeploymentChecker.waitForDeployment`:
propagate a check error, turn a `failed` status into an error carrying the
remote-provided message, otherwise report the observed status. -/
def wafRefresh (res : Except String WAFVersion) :
    Except String (WAFVersion × WAFDeploymentStatus) :=
  match res with
  | .error e => .error e
  | .ok v =>
    if v.lastDeploymentStatus = .failed then
      .error ("waf deployment failed. Error message: " ++ v.error)
    else
      .ok (v, v.lastDeploymentStatus)

inductive WaitOutcome where
  | success
  | failure (msg : String)
  | timedOut
deriving DecidableEq

/-- The SDK wait loop over the available observations: a refresh error
aborts; the target state `completed` must be seen 5 times consecutively
(a non-target observation resets the count); running out of observations
is the timeout. -/
def waitForStateLoop (obs : List (Except String WAFVersion)) (consecutive : Nat) :
    WaitOutcome :=
  match obs with
  | [] => .timedOut
  | o :: rest =>
    match wafRefresh o with
    | .error m => .failure m
    | .ok (_, st) =>
      if st = .completed then
        if 5 ≤ consecutive + 1 then .success else waitForStateLoop rest (consecutive + 1)
      else waitForStateLoop rest 0

/-- `WAFDeploymentChecker.waitForDeployment`: `none` on success, otherwise
the wrapped error string. -/
def waitForDeployment (wafID : String) (obs : List (Except String WAFVersion)) :
    Option String :=
  match waitForStateLoop obs 0 with
  | .success => none
  | .failure m =>
    some ("error waiting for WAF Version (" ++ wafID ++ ") to be updated: " ++ m)
  | .timedOut =>
    some ("error waiting for WAF Version (" ++ wafID ++
      ") to be updated: timeout while waiting for state to become completed")

/-! ## Helper lemmas -/

theorem alistLookup_eq_none_of_not_mem_keys (m : AList) (k : String)
    (h : k ∉ alistKeys m) : alistLookup m k = none := by
  induction m with
  | nil => rfl
  | cons p rest ih =>
    simp only [alistKeys, List.map_cons, List.mem_cons, not_or] at h
    obtain ⟨h1, h2⟩ := h
    have hb : (p.1 == k) = false := beq_eq_false_iff_ne.mpr (fun e => h1 e.symm)
    simp only [alistLookup, List.find?_cons, hb]
    exact ih h2

theorem mem_encodeForm_keys (pairs : List (String × Option String)) (k : String) :
    k ∈ (encodeForm pairs).map Prod.fst ↔ ∃ v, (k, some v) ∈ pairs := by
  induction pairs with
  | nil => simp [encodeForm]
  | cons p rest ih =>
    obtain ⟨k', v'⟩ := p
    cases v' with
    | none =>
      simp only [encodeForm, List.filterMap_cons] at ih ⊢
      simp only [Option.map_none', List.mem_cons, ih, Prod.mk.injEq]
      constructor
      · rintro ⟨v, hv⟩
        exact ⟨v, Or.inr hv⟩
      · rintro ⟨v, ⟨_, hv⟩ | hv⟩
        · cases hv
        · exact ⟨v, hv⟩
    | some w =>
      simp only [encodeForm, List.filterMap_cons] at ih ⊢
      simp only [Option.map_some', List.map_cons, List.mem_cons, ih, Prod.mk.injEq]
      constructor
      · rintro (rfl | ⟨v, hv⟩)
        · exact ⟨w, Or.inl ⟨rfl, rfl⟩⟩
        · exact ⟨v, Or.inr hv⟩
      · rintro ⟨v, ⟨h1, _⟩ | hv⟩
        · exact Or.inl h1
        · exact Or.inr ⟨v, hv⟩

/-! ## Claims -/

/-- C7: for both logging handlers (Datadog and S3), the `GetSchema` block
contains `format`, `format_version`, `response_condition` and `placement`
exactly when the service metadata has the VCL type — all four are omitted
for the compute type — and every other block attribute is present for both
service types. -/
theorem getSchema_vcl_only_fields :
    (DatadogGetSchemaKeys .vcl = DatadogGetSchemaKeys .compute ++ vclOnlyFields) ∧
    (S3LoggingGetSchemaKeys .vcl = S3LoggingGetSchemaKeys .compute ++ vclOnlyFields) ∧
    (vclOnlyFields.all (fun k =>
      (DatadogGetSchemaKeys .vcl).contains k &&
      !((DatadogGetSchemaKeys .compute).contains k) &&
      (S3LoggingGetSchemaKeys .vcl).contains k &&
      !((S3LoggingGetSchemaKeys .compute).contains k)) = true) ∧
    ((DatadogGetSchemaKeys .compute).all
      (fun k => (DatadogGetSchemaKeys .vcl).contains k) = true) ∧
    ((S3LoggingGetSchemaKeys .compute).all
      (fun k => (S3LoggingGetSchemaKeys .vcl).contains k) = true) := by
  refine ⟨rfl, rfl, ?_, ?_, ?_⟩ <;> decide

/-- C9: the aws:kms validation in `UpdateS3` is not total: with
`ServerSideEncryption` set to `aws:kms` and `ServerSideEncryptionKMSKeyID`
left nil, `UpdateS3` hits a nil-pointer dereference (a panic) instead of
returning `ErrMissingServerSideEncryptionKMSKeyID`, unlike the guarded
check in `CreateS3`, which returns the sentinel error on the analogous
input. -/
theorem updateS3_nil_kms_key_id_panics :
    (UpdateS3 { serviceID := "sid", serviceVersion := 1, name := "logger",
                serverSideEncryption := some "aws:kms" } (.ok {})).1
      = .panicked "runtime error: invalid memory address or nil pointer dereference" ∧
    (CreateS3 { serviceID := "sid", serviceVersion := 1, name := "logger",
                serverSideEncryption := "aws:kms" } (.ok {})).1
      = .err .missingKMSKeyID := by
  exact ⟨rfl, rfl⟩

/-- C3: the provider delete helpers (`deleteS3`, `deleteDatadog`) return
success when the client reported no error, swallow an HTTP 404 error, and
propagate every other error — any non-404 HTTP error and any non-HTTP
error — completely unchanged. -/
theorem delete_swallows_404_propagates_rest :
    (deleteS3 none = none ∧ deleteDatadog none = none) ∧
    (∀ m, deleteS3 (some (.http 404 m)) = none ∧
          deleteDatadog (some (.http 404 m)) = none) ∧
    (∀ s m, s ≠ 404 →
      deleteS3 (some (.http s m)) = some (.http s m) ∧
      deleteDatadog (some (.http s m)) = some (.http s m)) ∧
    (∀ e : GoErr, (∀ s m, e ≠ .http s m) →
      deleteS3 (some e) = some e ∧ deleteDatadog (some e) = some e) := by
  refine ⟨⟨rfl, rfl⟩, ?_, ?_, ?_⟩
  · intro m
    exact ⟨rfl, rfl⟩
  · intro s m h
    have hb : (s == 404) = false := beq_eq_false_iff_ne.mpr h
    constructor <;> simp [deleteS3, deleteDatadog, hb]
  · intro e he
    cases e with
    | http s m => exact absurd rfl (he s m)
    | _ => exact ⟨rfl, rfl⟩

/-- C3 witness: concrete inputs for each branch of the delete-helper
behaviour. -/
theorem delete_swallows_404_propagates_rest_witness :
    deleteS3 (some (.http 404 "record not found")) = none ∧
    deleteS3 (some (.http 500 "server error")) = some (.http 500 "server error") ∧
    deleteDatadog (some (.other "connection reset")) = some (.other "connection reset") :=
  ⟨(delete_swallows_404_propagates_rest.2.1 "record not found").1,
   (delete_swallows_404_propagates_rest.2.2.1 500 "server error" (by decide)).1,
   (delete_swallows_404_propagates_rest.2.2.2 (.other "connection reset")
     (fun s m h => GoErr.noConfusion h)).2⟩

/-- C6: for every delete operation (S3, header, gzip, server), when the
remote response decodes to a status object the operation succeeds exactly
when the status's ok field is true, and a non-true ok field produces the
distinguished `ErrNotOK` error. -/
theorem delete_ok_field_decides_success :
    ∀ (sid nm pid srv : String) (ver : Int) (st : StatusResp),
      sid ≠ "" → ver ≠ 0 → nm ≠ "" → pid ≠ "" → srv ≠ "" →
      (((DeleteS3 ⟨sid, ver, nm⟩ (.ok st)).1 = .ok () ↔ st.ok = true) ∧
        (st.ok = false → (DeleteS3 ⟨sid, ver, nm⟩ (.ok st)).1 = .err .notOK)) ∧
      (((DeleteHeader ⟨sid, ver, nm⟩ (.ok st)).1 = .ok () ↔ st.ok = true) ∧
        (st.ok = false → (DeleteHeader ⟨sid, ver, nm⟩ (.ok st)).1 = .err .notOK)) ∧
      (((DeleteGzip ⟨sid, ver, nm⟩ (.ok st)).1 = .ok () ↔ st.ok = true) ∧
        (st.ok = false → (DeleteGzip ⟨sid, ver, nm⟩ (.ok st)).1 = .err .notOK)) ∧
      (((DeleteServer ⟨sid, pid, srv⟩ (.ok st)).1 = .ok () ↔ st.ok = true) ∧
        (st.ok = false → (DeleteServer ⟨sid, pid, srv⟩ (.ok st)).1 = .err .notOK)) := by
  intro sid nm pid srv ver st h1 h2 h3 h4 h5
  obtain ⟨b⟩ := st
  cases b <;>
    refine ⟨⟨?_, ?_⟩, ⟨?_, ?_⟩, ⟨?_, ?_⟩, ⟨?_, ?_⟩⟩ <;>
      simp [DeleteS3, DeleteHeader, DeleteGzip, DeleteServer, h1, h2, h3, h4, h5]

/-- C6 witness: a concrete not-ok status yields `ErrNotOK`, a concrete ok
status yields success. -/
theorem delete_ok_field_decides_success_witness :
    ((DeleteS3 ⟨"sid", 1, "nm"⟩ (.ok ⟨false⟩)).1 = .err .notOK) ∧
    ((DeleteServer ⟨"sid", "pool", "srv"⟩ (.ok ⟨true⟩)).1 = .ok ()) :=
  ⟨((delete_ok_field_decides_success "sid" "nm" "pool" "srv" 1 ⟨false⟩
      (by decide) (by decide) (by decide) (by decide) (by decide)).1.2 rfl),
   ((delete_ok_field_decides_success "sid" "nm" "pool" "srv" 1 ⟨true⟩
      (by decide) (by decide) (by decide) (by decide) (by decide)).2.2.2.1.mpr rfl)⟩

/-- C10: every map produced by `flattenS3s` or `flattenDatadog` contains no
entry whose value is the (string-typed) empty string — all empty-string
fields are pruned before the map is stored in state. -/
theorem flatten_prunes_empty_strings :
    ∀ (l : List S3) (dl : List Datadog) (m : AList),
      (m ∈ flattenS3s l → ∀ p ∈ m, p.2 ≠ GoVal.str "") ∧
      (m ∈ flattenDatadog dl → ∀ p ∈ m, p.2 ≠ GoVal.str "") := by
  intro l dl m
  constructor
  · intro hm p hp
    obtain ⟨s, _, rfl⟩ := List.mem_map.mp hm
    have hkeep := (List.mem_filter.mp hp).2
    intro hv
    rw [hv] at hkeep
    simp [GoVal.isEmptyStr] at hkeep
  · intro hm p hp
    obtain ⟨d, _, rfl⟩ := List.mem_map.mp hm
    have hkeep := (List.mem_filter.mp hp).2
    intro hv
    rw [hv] at hkeep
    simp [GoVal.isEmptyStr] at hkeep

/-- C10 witness: a record with a populated name and empty optional fields
flattens to a map whose "name" entry is nonempty (applying the invariant to
that entry), and the flattened map indeed evaluates with the empty fields
pruned away. -/
theorem flatten_prunes_empty_strings_witness :
    GoVal.str "mylogger" ≠ GoVal.str "" ∧
    flattenDatadog [{ name := "dd", token := "tok" }] =
      [[("name", .str "dd"), ("token", .str "tok"), ("format_version", .uintV 0)]] :=
  ⟨(flatten_prunes_empty_strings [{ name := "mylogger" }] [] (flattenS3One { name := "mylogger" })).1
      (by simp [flattenS3s])
      ("name", GoVal.str "mylogger") (by decide),
   by decide⟩

/-- C1 (counterexample): the claim extends "sorted in ascending order by
name" to servers, but a `Server` has no name field — its name slot in the
resource paths is the server id — and `ListServers` sorts by address.  For
a concrete decoded response whose ids and addresses are ordered oppositely,
the returned list is not ascending in the identifier. -/
theorem listServers_not_sorted_by_name_slot :
    (ListServers ⟨"sid", "pool"⟩ (.ok
        [{ id := "a", address := "z" }, { id := "b", address := "y" }])).1
      = .ok [{ id := "b", address := "y" }, { id := "a", address := "z" }] ∧
    ¬ ([({ id := "b", address := "y" } : Server),
        { id := "a", address := "z" }].Pairwise fun a b => a.id ≤ b.id) := by
  constructor
  · rfl
  · intro h
    have hba : ("b" : String) ≤ "a" :=
      (List.pairwise_cons.mp h).1 _ (List.mem_cons_self _ _)
    exact absurd (String.le_iff_toList_le.mp hba) (by decide)

/-- C1 (amended): every successfully decoded list response is returned
sorted in ascending order by the resource kind's stable sort key —
the name for S3 loggers, headers and gzips, and the address for servers —
regardless of the order in which the remote API returned the elements, and
is a permutation of the decoded response. -/
theorem list_results_sorted :
    (∀ (i : ListS3sInput) (l l' : List S3),
        (ListS3s i (.ok l)).1 = .ok l' →
        (l'.Pairwise fun a b => a.name ≤ b.name) ∧ l'.Perm l) ∧
    (∀ (i : ListHeadersInput) (l l' : List Header),
        (ListHeaders i (.ok l)).1 = .ok l' →
        (l'.Pairwise fun a b => a.name ≤ b.name) ∧ l'.Perm l) ∧
    (∀ (i : ListGzipsInput) (l l' : List Gzip),
        (ListGzips i (.ok l)).1 = .ok l' →
        (l'.Pairwise fun a b => a.name ≤ b.name) ∧ l'.Perm l) ∧
    (∀ (i : ListServersInput) (l l' : List Server),
        (ListServers i (.ok l)).1 = .ok l' →
        (l'.Pairwise fun a b => a.address ≤ b.address) ∧ l'.Perm l) := by
  refine ⟨?_, ?_, ?_, ?_⟩
  · intro i l l' h
    by_cases h1 : i.serviceID = ""
    · simp [ListS3s, h1] at h
    · by_cases h2 : i.serviceVersion = 0
      · simp [ListS3s, h1, h2] at h
      · simp only [ListS3s, if_neg h1, if_neg h2, GoOutcome.ok.injEq] at h
        subst h
        refine ⟨(pairwise_stableSortByKey s3SortKey l).imp ?_, perm_stableSortByKey s3SortKey l⟩
        intro a b hk
        exact String.le_iff_toList_le.mpr hk
  · intro i l l' h
    by_cases h1 : i.serviceID = ""
    · simp [ListHeaders, h1] at h
    · by_cases h2 : i.serviceVersion = 0
      · simp [ListHeaders, h1, h2] at h
      · simp only [ListHeaders, if_neg h1, if_neg h2, GoOutcome.ok.injEq] at h
        subst h
        refine ⟨(pairwise_stableSortByKey headerSortKey l).imp ?_,
          perm_stableSortByKey headerSortKey l⟩
        intro a b hk
        exact String.le_iff_toList_le.mpr hk
  · intro i l l' h
    by_cases h1 : i.serviceID = ""
    · simp [ListGzips, h1] at h
    · by_cases h2 : i.serviceVersion = 0
      · simp [ListGzips, h1, h2] at h
      · simp only [ListGzips, if_neg h1, if_neg h2, GoOutcome.ok.injEq] at h
        subst h
        refine ⟨(pairwise_stableSortByKey gzipSortKey l).imp ?_,
          perm_stableSortByKey gzipSortKey l⟩
        intro a b hk
        exact String.le_iff_toList_le.mpr hk
  · intro i l l' h
    by_cases h1 : i.serviceID = ""
    · simp [ListServers, h1] at h
    · by_cases h2 : i.poolID = ""
      · simp [ListServers, h1, h2] at h
      · simp only [ListServers, if_neg h1, if_neg h2, GoOutcome.ok.injEq] at h
        subst h
        refine ⟨(pairwise_stableSortByKey serverSortKey l).imp ?_,
          perm_stableSortByKey serverSortKey l⟩
        intro a b hk
        exact String.le_iff_toList_le.mpr hk

/-- C1 witness: a concrete out-of-order S3 list is returned sorted by name
(and is a permutation of the response). -/
theorem list_results_sorted_witness :
    ([({ name := "alpha" } : S3), { name := "beta" }].Pairwise
      fun a b => a.name ≤ b.name) ∧
    List.Perm [({ name := "alpha" } : S3), { name := "beta" }]
      [{ name := "beta" }, { name := "alpha" }] :=
  list_results_sorted.1 ⟨"sid", 1⟩ [{ name := "beta" }, { name := "alpha" }]
    [{ name := "alpha" }, { name := "beta" }] rfl

/-- C2: in the S3 logging handler's `Update`, every block field whose
schema key is absent from the `modified` set is left as a nil pointer in
the built `UpdateS3Input` and is therefore omitted (omitempty) from the
form-encoded request body — its form key does not occur among the encoded
keys, so the remote field is left untouched. -/
theorem update_omits_unmodified_fields :
    ∀ (sid : String) (ver : Int) (nm : String) (modified : AList),
      ∀ p ∈ s3UpdateFieldPairs,
        p.1 ∉ alistKeys modified →
        p.2 ∉ (encodeUpdateS3Form (S3LoggingUpdateOpts sid ver nm modified)).map Prod.fst := by
  intro sid ver nm modified p hp
  fin_cases hp <;>
    · intro hkey
      have hlook := alistLookup_eq_none_of_not_mem_keys modified _ hkey
      simp only [encodeUpdateS3Form, mem_encodeForm_keys]
      simp [updateS3FormPairs, S3LoggingUpdateOpts, modStr, modUint, modUint8, hlook]

/-- C2 witness: with only `period` modified, the encoded update body
contains no `bucket_name` key. -/
theorem update_omits_unmodified_fields_witness :
    "bucket_name" ∉ (encodeUpdateS3Form
      (S3LoggingUpdateOpts "sid" 1 "logger" [("period", .intV 3600)])).map Prod.fst :=
  update_omits_unmodified_fields "sid" 1 "logger" [("period", .intV 3600)]
    ("bucket_name", "bucket_name") (by decide) (by decide)

/-- C5: for every client operation on every resource kind embedded here
(List/Create/Get/Update/Delete × S3, header, gzip, server), a missing
required identifying input field — empty service id, zero service version,
empty name, empty pool id, or empty server/address for pool servers — makes
the operation return the corresponding sentinel validation error
immediately, with an empty list of issued API calls (no network call),
independent of the remote.  Checks run in source order, so each case
assumes the previously checked fields are present. -/
theorem api_validation_errors_without_network_call :
    (∀ (i : ListS3sInput) (r : Except GoErr (List S3)),
      i.serviceID = "" → ListS3s i r = (.err .missingServiceID, [])) ∧
    (∀ (i : ListS3sInput) (r : Except GoErr (List S3)),
      i.serviceID ≠ "" → i.serviceVersion = 0 →
      ListS3s i r = (.err .missingServiceVersion, [])) ∧
    (∀ (i : ListHeadersInput) (r : Except GoErr (List Header)),
      i.serviceID = "" → ListHeaders i r = (.err .missingServiceID, [])) ∧
    (∀ (i : ListHeadersInput) (r : Except GoErr (List Header)),
      i.serviceID ≠ "" → i.serviceVersion = 0 →
      ListHeaders i r = (.err .missingServiceVersion, [])) ∧
    (∀ (i : ListGzipsInput) (r : Except GoErr (List Gzip)),
      i.serviceID = "" → ListGzips i r = (.err .missingServiceID, [])) ∧
    (∀ (i : ListGzipsInput) (r : Except GoErr (List Gzip)),
      i.serviceID ≠ "" → i.serviceVersion = 0 →
      ListGzips i r = (.err .missingServiceVersion, [])) ∧
    (∀ (i : ListServersInput) (r : Except GoErr (List Server)),
      i.serviceID = "" → ListServers i r = (.err .missingServiceID, [])) ∧
    (∀ (i : ListServersInput) (r : Except GoErr (List Server)),
      i.serviceID ≠ "" → i.poolID = "" → ListServers i r = (.err .missingPoolID, [])) ∧
    (∀ (i : CreateS3Input) (r : Except GoErr S3),
      i.serviceID = "" → CreateS3 i r = (.err .missingServiceID, [])) ∧
    (∀ (i : CreateS3Input) (r : Except GoErr S3),
      i.serviceID ≠ "" → i.serviceVersion = 0 →
      CreateS3 i r = (.err .missingServiceVersion, [])) ∧
    (∀ (i : CreateHeaderInput) (r : Except GoErr Header),
      i.serviceID = "" → CreateHeader i r = (.err .missingServiceID, [])) ∧
    (∀ (i : CreateHeaderInput) (r : Except GoErr Header),
      i.serviceID ≠ "" → i.serviceVersion = 0 →
      CreateHeader i r = (.err .missingServiceVersion, [])) ∧
    (∀ (i : CreateGzipInput) (r : Except GoErr Gzip),
      i.serviceID = "" → CreateGzip i r = (.err .missingServiceID, [])) ∧
    (∀ (i : CreateGzipInput) (r : Except GoErr Gzip),
      i.serviceID ≠ "" → i.serviceVersion = 0 →
      CreateGzip i r = (.err .missingServiceVersion, [])) ∧
    (∀ (i : CreateServerInput) (r : Except GoErr Server),
      i.serviceID = "" → CreateServer i r = (.err .missingServiceID, [])) ∧
    (∀ (i : CreateServerInput) (r : Except GoErr Server),
      i.serviceID ≠ "" → i.poolID = "" → CreateServer i r = (.err .missingPoolID, [])) ∧
    (∀ (i : CreateServerInput) (r : Except GoErr Server),
      i.serviceID ≠ "" → i.poolID ≠ "" → i.address = "" →
      CreateServer i r = (.err .missingAddress, [])) ∧
    (∀ (i : GetS3Input) (r : Except GoErr S3),
      i.serviceID = "" → GetS3 i r = (.err .missingServiceID, [])) ∧
    (∀ (i : GetS3Input) (r : Except GoErr S3),
      i.serviceID ≠ "" → i.serviceVersion = 0 →
      GetS3 i r = (.err .missingServiceVersion, [])) ∧
    (∀ (i : GetS3Input) (r : Except GoErr S3),
      i.serviceID ≠ "" → i.serviceVersion ≠ 0 → i.name = "" →
      GetS3 i r = (.err .missingName, [])) ∧
    (∀ (i : GetHeaderInput) (r : Except GoErr Header),
      i.serviceID = "" → GetHeader i r = (.err .missingServiceID, [])) ∧
    (∀ (i : GetHeaderInput) (r : Except GoErr Header),
      i.serviceID ≠ "" → i.serviceVersion = 0 →
      GetHeader i r = (.err .missingServiceVersion, [])) ∧
    (∀ (i : GetHeaderInput) (r : Except GoErr Header),
      i.serviceID ≠ "" → i.serviceVersion ≠ 0 → i.name = "" →
      GetHeader i r = (.err .missingName, [])) ∧
    (∀ (i : GetGzipInput) (r : Except GoErr Gzip),
      i.serviceID = "" → GetGzip i r = (.err .missingServiceID, [])) ∧
    (∀ (i : GetGzipInput) (r : Except GoErr Gzip),
      i.serviceID ≠ "" → i.serviceVersion = 0 →
      GetGzip i r = (.err .missingServiceVersion, [])) ∧
    (∀ (i : GetGzipInput) (r : Except GoErr Gzip),
      i.serviceID ≠ "" → i.serviceVersion ≠ 0 → i.name = "" →
      GetGzip i r = (.err .missingName, [])) ∧
    (∀ (i : GetServerInput) (r : Except GoErr Server),
      i.serviceID = "" → GetServer i r = (.err .missingServiceID, [])) ∧
    (∀ (i : GetServerInput) (r : Except GoErr Server),
      i.serviceID ≠ "" → i.poolID = "" → GetServer i r = (.err .missingPoolID, [])) ∧
    (∀ (i : GetServerInput) (r : Except GoErr Server),
      i.serviceID ≠ "" → i.poolID ≠ "" → i.server = "" →
      GetServer i r = (.err .missingServer, [])) ∧
    (∀ (i : UpdateS3Input) (r : Except GoErr S3),
      i.serviceID = "" → UpdateS3 i r = (.err .missingServiceID, [])) ∧
    (∀ (i : UpdateS3Input) (r : Except GoErr S3),
      i.serviceID ≠ "" → i.serviceVersion = 0 →
      UpdateS3 i r = (.err .missingServiceVersion, [])) ∧
    (∀ (i : UpdateS3Input) (r : Except GoErr S3),
      i.serviceID ≠ "" → i.serviceVersion ≠ 0 → i.name = "" →
      UpdateS3 i r = (.err .missingName, [])) ∧
    (∀ (i : UpdateHeaderInput) (r : Except GoErr Header),
      i.serviceID = "" → UpdateHeader i r = (.err .missingServiceID, [])) ∧
    (∀ (i : UpdateHeaderInput) (r : Except GoErr Header),
      i.serviceID ≠ "" → i.serviceVersion = 0 →
      UpdateHeader i r = (.err .missingServiceVersion, [])) ∧
    (∀ (i : UpdateHeaderInput) (r : Except GoErr Header),
      i.serviceID ≠ "" → i.serviceVersion ≠ 0 → i.name = "" →
      UpdateHeader i r = (.err .missingName, [])) ∧
    (∀ (i : UpdateGzipInput) (r : Except GoErr Gzip),
      i.serviceID = "" → UpdateGzip i r = (.err .missingServiceID, [])) ∧
    (∀ (i : UpdateGzipInput) (r : Except GoErr Gzip),
      i.serviceID ≠ "" → i.serviceVersion = 0 →
      UpdateGzip i r = (.err .missingServiceVersion, [])) ∧
    (∀ (i : UpdateGzipInput) (r : Except GoErr Gzip),
      i.serviceID ≠ "" → i.serviceVersion ≠ 0 → i.name = "" →
      UpdateGzip i r = (.err .missingName, [])) ∧
    (∀ (i : UpdateServerInput) (r : Except GoErr Server),
      i.serviceID = "" → UpdateServer i r = (.err .missingServiceID, [])) ∧
    (∀ (i : UpdateServerInput) (r : Except GoErr Server),
      i.serviceID ≠ "" → i.poolID = "" → UpdateServer i r = (.err .missingPoolID, [])) ∧
    (∀ (i : UpdateServerInput) (r : Except GoErr Server),
      i.serviceID ≠ "" → i.poolID ≠ "" → i.server = "" →
      UpdateServer i r = (.err .missingServer, [])) ∧
    (∀ (i : DeleteS3Input) (r : Except GoErr StatusResp),
      i.serviceID = "" → DeleteS3 i r = (.err .missingServiceID, [])) ∧
    (∀ (i : DeleteS3Input) (r : Except GoErr StatusResp),
      i.serviceID ≠ "" → i.serviceVersion = 0 →
      DeleteS3 i r = (.err .missingServiceVersion, [])) ∧
    (∀ (i : DeleteS3Input) (r : Except GoErr StatusResp),
      i.serviceID ≠ "" → i.serviceVersion ≠ 0 → i.name = "" →
      DeleteS3 i r = (.err .missingName, [])) ∧
    (∀ (i : DeleteHeaderInput) (r : Except GoErr StatusResp),
      i.serviceID = "" → DeleteHeader i r = (.err .missingServiceID, [])) ∧
    (∀ (i : DeleteHeaderInput) (r : Except GoErr StatusResp),
      i.serviceID ≠ "" → i.serviceVersion = 0 →
      DeleteHeader i r = (.err .missingServiceVersion, [])) ∧
    (∀ (i : DeleteHeaderInput) (r : Except GoErr StatusResp),
      i.serviceID ≠ "" → i.serviceVersion ≠ 0 → i.name = "" →
      DeleteHeader i r = (.err .missingName, [])) ∧
    (∀ (i : DeleteGzipInput) (r : Except GoErr StatusResp),
      i.serviceID = "" → DeleteGzip i r = (.err .missingServiceID, [])) ∧
    (∀ (i : DeleteGzipInput) (r : Except GoErr StatusResp),
      i.serviceID ≠ "" → i.serviceVersion = 0 →
      DeleteGzip i r = (.err .missingServiceVersion, [])) ∧
    (∀ (i : DeleteGzipInput) (r : Except GoErr StatusResp),
      i.serviceID ≠ "" → i.serviceVersion ≠ 0 → i.name = "" →
      DeleteGzip i r = (.err .missingName, [])) ∧
    (∀ (i : DeleteServerInput) (r : Except GoErr StatusResp),
      i.serviceID = "" → DeleteServer i r = (.err .missingServiceID, [])) ∧
    (∀ (i : DeleteServerInput) (r : Except GoErr StatusResp),
      i.serviceID ≠ "" → i.poolID = "" → DeleteServer i r = (.err .missingPoolID, [])) ∧
    (∀ (i : DeleteServerInput) (r : Except GoErr StatusResp),
      i.serviceID ≠ "" → i.poolID ≠ "" → i.server = "" →
      DeleteServer i r = (.err .missingServer, [])) := by
  refine ⟨?_, ?_, ?_, ?_, ?_, ?_, ?_, ?_, ?_, ?_, ?_, ?_, ?_, ?_, ?_, ?_, ?_, ?_,
    ?_, ?_, ?_, ?_, ?_, ?_, ?_, ?_, ?_, ?_, ?_, ?_, ?_, ?_, ?_, ?_, ?_, ?_, ?_,
    ?_, ?_, ?_, ?_, ?_, ?_, ?_, ?_, ?_, ?_, ?_, ?_, ?_, ?_, ?_, ?_⟩ <;>
    · intros i r
      intros
      simp_all [ListS3s, ListHeaders, ListGzips, ListServers, CreateS3,
        CreateHeader, CreateGzip, CreateServer, GetS3, GetHeader, GetGzip,
        GetServer, UpdateS3, UpdateHeader, UpdateGzip, UpdateServer, DeleteS3,
        DeleteHeader, DeleteGzip, DeleteServer]

/-- C5 witness: concrete operations with a missing identifying field return
the sentinel error and issue no API call. -/
theorem api_validation_errors_without_network_call_witness :
    ListS3s ⟨"", 1⟩ (.error (.other "network unreachable")) = (.err .missingServiceID, []) ∧
    ListS3s ⟨"sid", 0⟩ (.ok []) = (.err .missingServiceVersion, []) ∧
    ListServers ⟨"sid", ""⟩ (.ok []) = (.err .missingPoolID, []) :=
  ⟨api_validation_errors_without_network_call.1 ⟨"", 1⟩ _ rfl,
   api_validation_errors_without_network_call.2.1 ⟨"sid", 0⟩ _ (by decide) rfl,
   api_validation_errors_without_network_call.2.2.2.2.2.2.2.1 ⟨"sid", ""⟩ _ (by decide) rfl⟩

/-! ## WAF poller lemmas -/

theorem waitForStateLoop_skip_nonterminal
    (pre : List (Except String WAFVersion))
    (hpre : ∀ o ∈ pre, ∃ v, o = .ok v ∧
      (v.lastDeploymentStatus = .pending ∨ v.lastDeploymentStatus = .inProgress))
    (l : List (Except String WAFVersion)) :
    waitForStateLoop (pre ++ l) 0 = waitForStateLoop l 0 := by
  induction pre with
  | nil => rfl
  | cons o rest ih =>
    obtain ⟨v, rfl, hst⟩ := hpre o (List.mem_cons_self o rest)
    have hnf : ¬ v.lastDeploymentStatus = .failed := by
      rcases hst with h | h <;> simp [h]
    have hnc : ¬ v.lastDeploymentStatus = .completed := by
      rcases hst with h | h <;> simp [h]
    have := ih fun o ho => hpre o (List.mem_cons_of_mem _ ho)
    simpa [waitForStateLoop, wafRefresh, hnf, hnc] using this

theorem waitForStateLoop_completed_run
    (comp rest : List (Except String WAFVersion)) (c : Nat)
    (hcomp : ∀ o ∈ comp, ∃ v, o = .ok v ∧ v.lastDeploymentStatus = .completed)
    (hc : c < 5) (hlen : 5 ≤ c + comp.length) :
    waitForStateLoop (comp ++ rest) c = .success := by
  induction comp generalizing c with
  | nil =>
    simp only [List.length_nil] at hlen
    omega
  | cons o comp ih =>
    obtain ⟨v, rfl, hst⟩ := hcomp o (List.mem_cons_self _ _)
    have hnf : ¬ v.lastDeploymentStatus = .failed := by simp [hst]
    by_cases h5 : 5 ≤ c + 1
    · simp [waitForStateLoop, wafRefresh, hnf, hst, h5]
    · have hrec : waitForStateLoop (comp ++ rest) (c + 1) = .success := by
        refine ih (c + 1) (fun o ho => hcomp o (List.mem_cons_of_mem _ ho)) (by omega) ?_
        simp only [List.length_cons] at hlen
        omega
      simpa [waitForStateLoop, wafRefresh, hnf, hst, h5] using hrec

theorem waitForStateLoop_failed_head (v : WAFVersion)
    (hv : v.lastDeploymentStatus = .failed)
    (rest : List (Except String WAFVersion)) (c : Nat) :
    waitForStateLoop (Except.ok v :: rest) c =
      .failure ("waf deployment failed. Error message: " ++ v.error) := by
  simp [waitForStateLoop, wafRefresh, hv]

/-- C4: the WAF deployment wait.  (a) A status sequence of pending /
in-progress observations followed by `completed` observed 5 consecutive
times (the checker's ContinuousTargetOccurence) succeeds.  (b) A sequence
that reaches `failed` after non-terminal observations produces an error
whose message contains the remote-provided error detail.  (c) A sequence
that never leaves the non-terminal statuses before the observations allowed
by the configured timeout run out produces the timeout error. -/
theorem waf_poller_outcomes :
    (∀ (wafID : String) (pre comp rest : List (Except String WAFVersion)),
      (∀ o ∈ pre, ∃ v, o = .ok v ∧
        (v.lastDeploymentStatus = .pending ∨ v.lastDeploymentStatus = .inProgress)) →
      comp.length = 5 →
      (∀ o ∈ comp, ∃ v, o = .ok v ∧ v.lastDeploymentStatus = .completed) →
      waitForDeployment wafID (pre ++ comp ++ rest) = none) ∧
    (∀ (wafID : String) (pre rest : List (Except String WAFVersion)) (v : WAFVersion),
      (∀ o ∈ pre, ∃ w, o = .ok w ∧
        (w.lastDeploymentStatus = .pending ∨ w.lastDeploymentStatus = .inProgress)) →
      v.lastDeploymentStatus = .failed →
      ∃ a b, waitForDeployment wafID (pre ++ Except.ok v :: rest) = some (a ++ v.error ++ b)) ∧
    (∀ (wafID : String) (obs : List (Except String WAFVersion)),
      (∀ o ∈ obs, ∃ v, o = .ok v ∧
        (v.lastDeploymentStatus = .pending ∨ v.lastDeploymentStatus = .inProgress)) →
      waitForDeployment wafID obs =
        some ("error waiting for WAF Version (" ++ wafID ++
          ") to be updated: timeout while waiting for state to become completed")) := by
  refine ⟨?_, ?_, ?_⟩
  · intro wafID pre comp rest hpre hlen hcomp
    have hloop : waitForStateLoop (pre ++ (comp ++ rest)) 0 = .success := by
      rw [waitForStateLoop_skip_nonterminal pre hpre]
      exact waitForStateLoop_completed_run comp rest 0 hcomp (by omega) (by omega)
    rw [List.append_assoc]
    simp [waitForDeployment, hloop]
  · intro wafID pre rest v hpre hv
    have hloop : waitForStateLoop (pre ++ Except.ok v :: rest) 0 =
        .failure ("waf deployment failed. Error message: " ++ v.error) := by
      rw [waitForStateLoop_skip_nonterminal pre hpre]
      exact waitForStateLoop_failed_head v hv rest 0
    refine ⟨"error waiting for WAF Version (" ++ wafID ++ ") to be updated: " ++
      "waf deployment failed. Error message: ", "", ?_⟩
    rw [String.append_empty, String.append_assoc]
    simp [waitForDeployment, hloop]
  · intro wafID obs hobs
    have hloop : waitForStateLoop obs 0 = .timedOut := by
      have := waitForStateLoop_skip_nonterminal obs hobs []
      simpa using this
    simp [waitForDeployment, hloop]

/-- C4 witness: concrete observation sequences for the three behaviours of
the deployment wait. -/
theorem waf_poller_outcomes_witness :
    waitForDeployment "waf1"
      ([.ok { lastDeploymentStatus := .pending }, .ok { lastDeploymentStatus := .inProgress }] ++
        [.ok { lastDeploymentStatus := .completed }, .ok { lastDeploymentStatus := .completed },
         .ok { lastDeploymentStatus := .completed }, .ok { lastDeploymentStatus := .completed },
         .ok { lastDeploymentStatus := .completed }] ++ []) = none ∧
    (∃ a b, waitForDeployment "waf1"
      ([.ok { lastDeploymentStatus := .pending }] ++
        Except.ok { lastDeploymentStatus := .failed, error := "rule compilation error" } :: [])
        = some (a ++ "rule compilation error" ++ b)) ∧
    waitForDeployment "waf1"
      [.ok { lastDeploymentStatus := .pending }, .ok { lastDeploymentStatus := .inProgress }]
      = some ("error waiting for WAF Version (" ++ "waf1" ++
          ") to be updated: timeout while waiting for state to become completed") := by
  refine ⟨?_, ?_, ?_⟩
  · refine waf_poller_outcomes.1 "waf1" _ _ [] ?_ rfl ?_
    · intro o ho
      rcases List.mem_cons.mp ho with rfl | ho
      · exact ⟨_, rfl, Or.inl rfl⟩
      rcases List.mem_cons.mp ho with rfl | ho
      · exact ⟨_, rfl, Or.inr rfl⟩
      · cases ho
    · intro o ho
      rcases List.mem_cons.mp ho with rfl | ho
      · exact ⟨_, rfl, rfl⟩
      rcases List.mem_cons.mp ho with rfl | ho
      · exact ⟨_, rfl, rfl⟩
      rcases List.mem_cons.mp ho with rfl | ho
      · exact ⟨_, rfl, rfl⟩
      rcases List.mem_cons.mp ho with rfl | ho
      · exact ⟨_, rfl, rfl⟩
      rcases List.mem_cons.mp ho with rfl | ho
      · exact ⟨_, rfl, rfl⟩
      · cases ho
  · refine waf_poller_outcomes.2.1 "waf1" _ [] _ ?_ rfl
    intro o ho
    rcases List.mem_cons.mp ho with rfl | ho
    · exact ⟨_, rfl, Or.inl rfl⟩
    · cases ho
  · refine waf_poller_outcomes.2.2 "waf1" _ ?_
    intro o ho
    rcases List.mem_cons.mp ho with rfl | ho
    · exact ⟨_, rfl, Or.inl rfl⟩
    rcases List.mem_cons.mp ho with rfl | ho
    · exact ⟨_, rfl, Or.inr rfl⟩
    · cases ho

/-- C8: create→read round trip for the S3 logging handler (VCL service
type).  Building the create input from a configured block, letting the
remote store it (server-assigned timestamps aside), and flattening the
read-back record into configuration form recovers every originally
configured field value: the strings verbatim (nonempty, so they survive
the empty-string pruning; `server_side_encryption` restricted to the two
values the schema validator admits, which the buildCreate switch passes
through), and the numeric fields through Go's int→uint conversions, which
are the identity on in-range values. -/
theorem createS3_read_roundtrip :
    ∀ (sid : String) (ver : Int) (t1 t2 t3 : Option Int)
      (nm bkt ak sk ir pth dom fmt tsf red rc mt pk plc kms cc acl sse : String)
      (per gz fv : Int),
      nm ≠ "" → bkt ≠ "" → ak ≠ "" → sk ≠ "" → ir ≠ "" → pth ≠ "" → dom ≠ "" →
      fmt ≠ "" → tsf ≠ "" → red ≠ "" → rc ≠ "" → mt ≠ "" → pk ≠ "" → plc ≠ "" →
      kms ≠ "" → cc ≠ "" → acl ≠ "" →
      (sse = "AES256" ∨ sse = "aws:kms") →
      0 ≤ per → per < 2 ^ 64 → 0 ≤ gz → gz < 2 ^ 8 → 0 ≤ fv → fv < 2 ^ 64 →
      (let df : AList :=
        [("name", .str nm), ("bucket_name", .str bkt), ("s3_access_key", .str ak),
         ("s3_secret_key", .str sk), ("s3_iam_role", .str ir), ("path", .str pth),
         ("period", .intV per), ("domain", .str dom), ("gzip_level", .intV gz),
         ("format", .str fmt), ("format_version", .intV fv),
         ("timestamp_format", .str tsf), ("redundancy", .str red),
         ("response_condition", .str rc), ("message_type", .str mt),
         ("public_key", .str pk), ("placement", .str plc),
         ("server_side_encryption", .str sse),
         ("server_side_encryption_kms_key_id", .str kms),
         ("compression_codec", .str cc), ("acl", .str acl)]
       let m := flattenS3One
         (s3FromCreate (S3LoggingBuildCreate .vcl df sid ver) t1 t2 t3)
       alistLookup m "name" = some (.str nm) ∧
       alistLookup m "bucket_name" = some (.str bkt) ∧
       alistLookup m "s3_access_key" = some (.str ak) ∧
       alistLookup m "s3_secret_key" = some (.str sk) ∧
       alistLookup m "s3_iam_role" = some (.str ir) ∧
       alistLookup m "path" = some (.str pth) ∧
       alistLookup m "period" = some (.uintV per.toNat) ∧
       alistLookup m "domain" = some (.str dom) ∧
       alistLookup m "gzip_level" = some (.uintV gz.toNat) ∧
       alistLookup m "format" = some (.str fmt) ∧
       alistLookup m "format_version" = some (.uintV fv.toNat) ∧
       alistLookup m "timestamp_format" = some (.str tsf) ∧
       alistLookup m "redundancy" = some (.str red) ∧
       alistLookup m "response_condition" = some (.str rc) ∧
       alistLookup m "message_type" = some (.str mt) ∧
       alistLookup m "public_key" = some (.str pk) ∧
       alistLookup m "placement" = some (.str plc) ∧
       alistLookup m "server_side_encryption" = some (.str sse) ∧
       alistLookup m "server_side_encryption_kms_key_id" = some (.str kms) ∧
       alistLookup m "compression_codec" = some (.str cc) ∧
       alistLookup m "acl" = some (.str acl)) := by
  intro sid ver t1 t2 t3 nm bkt ak sk ir pth dom fmt tsf red rc mt pk plc kms cc acl sse
    per gz fv hnm hbkt hak hsk hir hpth hdom hfmt htsf hred hrc hmt hpk hplc hkms hcc
    hacl hsse hper0 hper1 hgz0 hgz1 hfv0 hfv1
  have hper : per % 18446744073709551616 = per := by omega
  have hgz : gz % 256 = gz := by omega
  have hfv : fv % 18446744073709551616 = fv := by omega
  have bnm : (nm == "") = false := beq_eq_false_iff_ne.mpr hnm
  have bbkt : (bkt == "") = false := beq_eq_false_iff_ne.mpr hbkt
  have bak : (ak == "") = false := beq_eq_false_iff_ne.mpr hak
  have bsk : (sk == "") = false := beq_eq_false_iff_ne.mpr hsk
  have bir : (ir == "") = false := beq_eq_false_iff_ne.mpr hir
  have bpth : (pth == "") = false := beq_eq_false_iff_ne.mpr hpth
  have bdom : (dom == "") = false := beq_eq_false_iff_ne.mpr hdom
  have bfmt : (fmt == "") = false := beq_eq_false_iff_ne.mpr hfmt
  have btsf : (tsf == "") = false := beq_eq_false_iff_ne.mpr htsf
  have bred : (red == "") = false := beq_eq_false_iff_ne.mpr hred
  have brc : (rc == "") = false := beq_eq_false_iff_ne.mpr hrc
  have bmt : (mt == "") = false := beq_eq_false_iff_ne.mpr hmt
  have bpk : (pk == "") = false := beq_eq_false_iff_ne.mpr hpk
  have bplc : (plc == "") = false := beq_eq_false_iff_ne.mpr hplc
  have bkms : (kms == "") = false := beq_eq_false_iff_ne.mpr hkms
  have bcc : (cc == "") = false := beq_eq_false_iff_ne.mpr hcc
  have bacl : (acl == "") = false := beq_eq_false_iff_ne.mpr hacl
  rcases hsse with rfl | rfl <;>
    simp [S3LoggingBuildCreate, getVCLLoggingAttributes, uintOrDefault, dfStr,
      dfUint, dfUint8, modStr, modUint, alistLookup, GoVal.asStr, GoVal.asInt,
      goUint, goUint8, s3FromCreate, flattenS3One, GoVal.isEmptyStr, hper, hgz,
      hfv, bnm, bbkt, bak, bsk, bir, bpth, bdom, bfmt, btsf, bred, brc, bmt,
      bpk, bplc, bkms, bcc, bacl, List.filter]

/-- C8 witness: a concrete configured block round-trips through
buildCreate, the remote echo and flattenS3s, recovering the configured
bucket name and period. -/
theorem createS3_read_roundtrip_witness :
    alistLookup (flattenS3One (s3FromCreate
      (S3LoggingBuildCreate .vcl
        [("name", .str "s3logger"), ("bucket_name", .str "logs-bucket"),
         ("s3_access_key", .str "AKIA"), ("s3_secret_key", .str "SECRET"),
         ("s3_iam_role", .str "arn:aws:iam::role"), ("path", .str "/prefix/"),
         ("period", .intV 3600), ("domain", .str "s3.amazonaws.com"),
         ("gzip_level", .intV 9), ("format", .str "%h %l %u %t"),
         ("format_version", .intV 2), ("timestamp_format", .str "%Y"),
         ("redundancy", .str "standard"), ("response_condition", .str "cond"),
         ("message_type", .str "classic"), ("public_key", .str "pgp"),
         ("placement", .str "none"), ("server_side_encryption", .str "AES256"),
         ("server_side_encryption_kms_key_id", .str "kms-key"),
         ("compression_codec", .str "zstd"), ("acl", .str "private")]
        "svc" 3) (some 10) (some 20) none)) "bucket_name"
      = some (.str "logs-bucket") ∧
    alistLookup (flattenS3One (s3FromCreate
      (S3LoggingBuildCreate .vcl
        [("name", .str "s3logger"), ("bucket_name", .str "logs-bucket"),
         ("s3_access_key", .str "AKIA"), ("s3_secret_key", .str "SECRET"),
         ("s3_iam_role", .str "arn:aws:iam::role"), ("path", .str "/prefix/"),
         ("period", .intV 3600), ("domain", .str "s3.amazonaws.com"),
         ("gzip_level", .intV 9), ("format", .str "%h %l %u %t"),
         ("format_version", .intV 2), ("timestamp_format", .str "%Y"),
         ("redundancy", .str "standard"), ("response_condition", .str "cond"),
         ("message_type", .str "classic"), ("public_key", .str "pgp"),
         ("placement", .str "none"), ("server_side_encryption", .str "AES256"),
         ("server_side_encryption_kms_key_id", .str "kms-key"),
         ("compression_codec", .str "zstd"), ("acl", .str "private")]
        "svc" 3) (some 10) (some 20) none)) "period"
      = some (.uintV 3600) := by
  have h := createS3_read_roundtrip "svc" 3 (some 10) (some 20) none
    "s3logger" "logs-bucket" "AKIA" "SECRET" "arn:aws:iam::role" "/prefix/"
    "s3.amazonaws.com" "%h %l %u %t" "%Y" "standard" "cond" "classic" "pgp"
    "none" "kms-key" "zstd" "private" "AES256" 3600 9 2
    (by decide) (by decide) (by decide) (by decide) (by decide) (by decide)
    (by decide) (by decide) (by decide) (by decide) (by decide) (by decide)
    (by decide) (by decide) (by decide) (by decide) (by decide)
    (Or.inl rfl)
    (by decide) (by decide) (by decide) (by decide) (by decide) (by decide)
  exact ⟨h.2.1, h.2.2.2.2.2.2.1⟩

end Fastly
